import Mathlib

/-!
Shallow embedding of `src/pagina.py` (chatbot for the "Instituto 13 de Julio").

Modelling conventions:
* Python strings are lists of characters (`Str`); `str.lower()` is `Char.toLower`
  mapped over the list (ASCII-level, which covers every input the theorems use);
  the substring test `a in b` is `a <:+: b` (`List.IsInfix`).
* The knowledge base (a JSON object, i.e. a Python `dict`) is an association
  list in insertion order; `dict.get(k, d)` is `(List.lookup k l).getD d`.
* The Groq client call is an oracle `List Message → Option Str`: `some r` means
  `chat.completions.create` returned content `r`, `none` means it raised (the
  `except` branch of `generar_respuesta_modelo`).
* Streamlit session state `st.session_state.mensajes` is threaded explicitly
  through `procesar_turno`, which embeds the body of the
  `if prompt_usuario := st.chat_input(...)` block (lines 115-140).
-/

namespace Pagina

/-- Python strings, modelled as lists of characters. -/
abbrev Str := List Char

/-- Python `str.lower()` (applied to the query at line 53). -/
def lower (s : Str) : Str := s.map Char.toLower

/-- Interpolation `f"- {content}\n"` at line 57. -/
def linea (content : Str) : Str := "- ".data ++ content ++ "\n".data

/-- Fixed default of `base_de_conocimiento.get("instituto", ...)` at line 61. -/
def SIN_CONTEXTO : Str := "No se encontró contexto específico.".data

/-- Reserved fallback key at line 61. -/
def CLAVE_FALLBACK : Str := "instituto".data

/-- Test `keyword in query_lower` at line 56 (substring containment). -/
def coincide (query_lower : Str) (kv : Str × Str) : Bool :=
  kv.1 <:+: query_lower

/-- Function `buscar_contexto_relevante` (lines 46-62). `none` models a `None`
base (line 50); the loop at lines 55-57 builds the accumulator in the iteration
order of the dict, embedded as a left fold over the association list. -/
def buscar_contexto_relevante (query : Str) : Option (List (Str × Str)) → Str
  | none => "Error: la base de conocimientos no está disponible.".data
  | some base =>
    let query_lower := lower query
    let contexto_encontrado :=
      base.foldl (fun acc kv => if coincide query_lower kv then acc ++ linea kv.2 else acc) []
    if contexto_encontrado = [] then
      (List.lookup CLAVE_FALLBACK base).getD SIN_CONTEXTO
    else contexto_encontrado

/-- Chat message: a role string and a content string. -/
structure Message where
  role : Str
  content : Str
deriving DecidableEq

/-- Role string "system". -/
def ROL_SYSTEM : Str := "system".data

/-- Role string "user". -/
def ROL_USER : Str := "user".data

/-- Role string "assistant". -/
def ROL_ASSISTANT : Str := "assistant".data

/-- Apostrophe character (U+0027), used inside the error messages of the loader. -/
def APOSTROFE : Char := Char.ofNat 39

/-- Default path, the file conocimiento.json (line 32). -/
def RUTA_DEFECTO : Str := "conocimiento.json".data

/-- Error message of the `FileNotFoundError` branch (line 40). -/
def MSG_NO_ENCONTRADO (ruta : Str) : Str :=
  "Error Crítico: No se encontró el archivo ".data ++ [APOSTROFE] ++ ruta ++ [APOSTROFE]
    ++ ". Asegúrate de que exista en la misma carpeta que este script.".data

/-- Error message of the `json.JSONDecodeError` branch (line 43). -/
def MSG_JSON_INVALIDO (ruta : Str) : Str :=
  "Error Crítico: El archivo ".data ++ [APOSTROFE] ++ ruta ++ [APOSTROFE]
    ++ " no tiene un formato JSON válido.".data

/-- Outcome of `open` + `json.load` on the knowledge file: the two exception
kinds the code catches, or a successfully parsed mapping. -/
inductive LecturaArchivo where
  | noEncontrado : LecturaArchivo
  | jsonInvalido : LecturaArchivo
  | contenido : List (Str × Str) → LecturaArchivo

/-- Function `cargar_base_de_conocimiento` (lines 32-44). First component is
the returned value (`None` on either exception); second is the `st.error`
message shown, if any. -/
def cargar_base_de_conocimiento (ruta : Str) : LecturaArchivo → Option (List (Str × Str)) × Option Str
  | .noEncontrado => (none, some (MSG_NO_ENCONTRADO ruta))
  | .jsonInvalido => (none, some (MSG_JSON_INVALIDO ruta))
  | .contenido base => (some base, none)

/-- Lines 86-88 of `main`: load the knowledge base with the default path; when
the first component is `none` the error was already shown and `st.stop()` halts
the session before the chat input is ever processed. -/
def main_arranque (lectura : LecturaArchivo) : Option (List (Str × Str)) × Option Str :=
  cargar_base_de_conocimiento RUTA_DEFECTO lectura

/-- Constant `SYSTEM_PROMPT` (lines 18-28, a triple-quoted Python string). -/
def SYSTEM_PROMPT : Str :=
  "\nEres un asistente virtual experto del \"Instituto 13 de Julio\".\nTu nombre es \"TecnoBot\". Eres amable, servicial y extremadamente eficiente.\nTu única función es responder preguntas relacionadas con el instituto.\nBasa tus respuestas estrictamente en el CONTEXTO RELEVANTE que se te proporciona.\nSi la pregunta del usuario no tiene que ver con el instituto o el contexto provisto,\nresponde amablemente que no puedes ayudar con ese tema, ya que tu especialidad es el instituto.\nNo inventes información. Si no sabes la respuesta, di que no tienes esa información y que\nsugieres contactar a la secretaría.\nSiempre preséntate como \"TecnoBot\" en tu primer saludo.\n".data

/-- Interpolation at line 125 building the dynamic system prompt. -/
def system_prompt_con_contexto (contexto_rag : Str) : Str :=
  SYSTEM_PROMPT ++ "\n\nUsa el siguiente CONTEXTO RELEVANTE para formular tu respuesta:\n".data
    ++ contexto_rag

/-- Initial transcript (lines 105-108): a single assistant greeting. -/
def mensajes_iniciales : List Message :=
  [⟨ROL_ASSISTANT, "¡Hola! Soy TecnoBot, el asistente virtual del Instituto 13 de Julio. ¿En qué puedo ayudarte?".data⟩]

/-- List comprehension at line 131: drop system-role entries. -/
def mensajes_relevantes (mensajes : List Message) : List Message :=
  mensajes.filter (fun msg => msg.role ≠ ROL_SYSTEM)

/-- Python slice `l[-10:]`: the last `n` elements (all of them when the list is
shorter). -/
def sliceUltimos (n : Nat) (l : List Message) : List Message :=
  l.drop (l.length - n)

/-- Lines 128-132: the payload is one system message followed by the last 10
non-system entries of the stored transcript. -/
def historial_para_api (mensajes : List Message) (contenido_system : Str) : List Message :=
  ⟨ROL_SYSTEM, contenido_system⟩ :: sliceUltimos 10 (mensajes_relevantes mensajes)

/-- Function `generar_respuesta_modelo` (lines 64-78): the oracle `api` stands
for `cliente_groq.chat.completions.create` plus the extraction of
`choices[0].message.content`; `none` is the caught exception (the `except`
branch shows an error and returns `None`). -/
def generar_respuesta_modelo (api : List Message → Option Str) (historial_chat : List Message) : Option Str :=
  api historial_chat

/-- Payload actually dispatched on a turn: lines 122-132 applied to the
transcript that already holds the new user message (appended at line 116). -/
def payload_del_turno (base : List (Str × Str)) (mensajes : List Message) (prompt_usuario : Str) : List Message :=
  historial_para_api (mensajes ++ [⟨ROL_USER, prompt_usuario⟩])
    (system_prompt_con_contexto (buscar_contexto_relevante prompt_usuario (some base)))

/-- One chat turn, lines 115-140: append the user message, build and dispatch
the payload, and — only when the reply is truthy, i.e. neither `None` nor the
empty string (`if respuesta_bot:` at line 138) — display it and append it as an
assistant message. Returns the stored transcript after the turn and the text
displayed in the assistant bubble, if any. -/
def procesar_turno (api : List Message → Option Str) (base : List (Str × Str))
    (mensajes : List Message) (prompt_usuario : Str) : List Message × Option Str :=
  let mensajes1 := mensajes ++ [⟨ROL_USER, prompt_usuario⟩]
  match generar_respuesta_modelo api (payload_del_turno base mensajes prompt_usuario) with
  | some respuesta_bot =>
      if respuesta_bot.isEmpty then (mensajes1, none)
      else (mensajes1 ++ [⟨ROL_ASSISTANT, respuesta_bot⟩], some respuesta_bot)
  | none => (mensajes1, none)

/-- Transcripts reachable by the Streamlit session: the initial greeting, then
any number of turns (the oracle, knowledge base and prompt may differ turn to
turn). -/
inductive Alcanzable : List Message → Prop where
  | inicial : Alcanzable mensajes_iniciales
  | paso : ∀ {mensajes : List Message} (api : List Message → Option Str)
      (base : List (Str × Str)) (prompt : Str),
      Alcanzable mensajes → Alcanzable (procesar_turno api base mensajes prompt).1

/-- Unrolling the accumulator loop of `buscar_contexto_relevante`: the fold
appends exactly the rendered lines of the matching entries, in order. -/
theorem foldl_linea_eq (ql : Str) (base : List (Str × Str)) (acc : Str) :
    base.foldl (fun acc kv => if coincide ql kv then acc ++ linea kv.2 else acc) acc
      = acc ++ ((base.filter (coincide ql)).map (fun kv => linea kv.2)).flatten := by
  induction base generalizing acc with
  | nil => simp
  | cons kv rest ih =>
    by_cases h : coincide ql kv
    · simp [List.foldl_cons, h, List.filter_cons, ih, List.append_assoc]
    · simp [List.foldl_cons, h, List.filter_cons, ih]

theorem linea_ne_nil (t : Str) : linea t ≠ [] := by
  simp [linea]

/-- Member of a list of lists sits somewhere inside the flattening. -/
theorem flatten_descompone {α : Type} {l : List α} {L : List (List α)} (h : l ∈ L) :
    ∃ A B : List α, L.flatten = A ++ l ++ B := by
  induction L with
  | nil => cases h
  | cons x xs ih =>
    rcases List.mem_cons.mp h with rfl | hx
    · exact ⟨[], xs.flatten, by simp⟩
    · obtain ⟨A, B, hAB⟩ := ih hx
      exact ⟨x ++ A, B, by simp [hAB, List.append_assoc]⟩

/-- When at least one entry matches, the retriever returns the concatenation of
the matched lines (the fallback branch is not taken). -/
theorem buscar_eq_flatten (query : Str) (base : List (Str × Str)) (kv : Str × Str)
    (hmem : kv ∈ base) (hco : coincide (lower query) kv = true) :
    buscar_contexto_relevante query (some base)
      = ((base.filter (coincide (lower query))).map (fun kv => linea kv.2)).flatten := by
  have hfil : kv ∈ base.filter (coincide (lower query)) := List.mem_filter.mpr ⟨hmem, hco⟩
  have hlin : linea kv.2 ∈ (base.filter (coincide (lower query))).map (fun kv => linea kv.2) :=
    List.mem_map.mpr ⟨kv, hfil, rfl⟩
  obtain ⟨A, B, hAB⟩ := flatten_descompone hlin
  have hne : ((base.filter (coincide (lower query))).map (fun kv => linea kv.2)).flatten ≠ [] := by
    rw [hAB]
    intro hcontra
    rcases List.append_eq_nil.mp hcontra with ⟨h1, h2⟩
    rcases List.append_eq_nil.mp h1 with ⟨-, h3⟩
    exact linea_ne_nil kv.2 h3
  simp only [buscar_contexto_relevante, foldl_linea_eq, List.nil_append]
  simp [hne]

/-- Text of a matched entry is a substring of the output of the retriever. -/
theorem texto_incluido (query : Str) (base : List (Str × Str)) (k t : Str)
    (hmem : (k, t) ∈ base) (hco : coincide (lower query) (k, t) = true) :
    t <:+: buscar_contexto_relevante query (some base) := by
  rw [buscar_eq_flatten query base (k, t) hmem hco]
  have hlin : linea t ∈ (base.filter (coincide (lower query))).map (fun kv => linea kv.2) :=
    List.mem_map.mpr ⟨(k, t), List.mem_filter.mpr ⟨hmem, hco⟩, rfl⟩
  obtain ⟨A, B, hAB⟩ := flatten_descompone hlin
  have h1 : t <:+: linea t := ⟨"- ".data, "\n".data, rfl⟩
  have h2 : linea t <:+: ((base.filter (coincide (lower query))).map (fun kv => linea kv.2)).flatten :=
    ⟨A, B, by rw [hAB]⟩
  exact h1.trans h2

/-- Claim C1 (amended): a stored entry whose keyword is a substring of the
LOWERCASED query contributes its text to the retrieved context. -/
theorem buscar_incluye_texto_clave (query : Str) (base : List (Str × Str)) (k t : Str)
    (hmem : (k, t) ∈ base) (hsub : k <:+: lower query) :
    t <:+: buscar_contexto_relevante query (some base) :=
  texto_incluido query base k t hmem (by simpa [coincide] using hsub)

theorem buscar_incluye_texto_clave_testigo :
    (("hola".data, "T".data) ∈ [("hola".data, "T".data)]
      ∧ "hola".data <:+: lower "Hola".data)
    ∧ "T".data <:+: buscar_contexto_relevante "Hola".data (some [("hola".data, "T".data)]) :=
  ⟨⟨by decide, by decide⟩,
    buscar_incluye_texto_clave "Hola".data [("hola".data, "T".data)] "hola".data "T".data
      (by decide) (by decide)⟩

/-- Claim C1, as stated, is false: the code matches against the lowercased
query, so an upper-case stored keyword that occurs verbatim in the query is
missed and its text does not appear in the result. -/
theorem buscar_clave_mayuscula_contraejemplo :
    ("A".data, "XYZ".data) ∈ [("A".data, "XYZ".data)]
    ∧ "A".data <:+: "A".data
    ∧ ¬ ("XYZ".data <:+: buscar_contexto_relevante "A".data (some [("A".data, "XYZ".data)])) := by
  decide

/-- Claim C2: with no keyword matching, the retriever returns the text of
the fallback entry, or the fixed message when the fallback key is absent. -/
theorem buscar_sin_coincidencias_fallback (query : Str) (base : List (Str × Str))
    (h : ∀ kv ∈ base, ¬ (kv.1 <:+: lower query)) :
    (∃ t, List.lookup CLAVE_FALLBACK base = some t
        ∧ buscar_contexto_relevante query (some base) = t)
    ∨ (List.lookup CLAVE_FALLBACK base = none
        ∧ buscar_contexto_relevante query (some base) = SIN_CONTEXTO) := by
  have hfil : base.filter (coincide (lower query)) = [] :=
    List.filter_eq_nil_iff.mpr (fun kv hkv => by simp [coincide, h kv hkv])
  have hbuscar : buscar_contexto_relevante query (some base)
      = (List.lookup CLAVE_FALLBACK base).getD SIN_CONTEXTO := by
    simp [buscar_contexto_relevante, foldl_linea_eq, hfil]
  cases hlk : List.lookup CLAVE_FALLBACK base with
  | none => exact Or.inr ⟨rfl, by simp [hbuscar, hlk]⟩
  | some t => exact Or.inl ⟨t, rfl, by simp [hbuscar, hlk]⟩

theorem buscar_sin_coincidencias_fallback_testigo :
    (∀ kv ∈ [("horario".data, "Clases".data)], ¬ (kv.1 <:+: lower "qué onda".data))
    ∧ ((∃ t, List.lookup CLAVE_FALLBACK [("horario".data, "Clases".data)] = some t
          ∧ buscar_contexto_relevante "qué onda".data (some [("horario".data, "Clases".data)]) = t)
      ∨ (List.lookup CLAVE_FALLBACK [("horario".data, "Clases".data)] = none
          ∧ buscar_contexto_relevante "qué onda".data (some [("horario".data, "Clases".data)]) = SIN_CONTEXTO)) :=
  ⟨by decide, buscar_sin_coincidencias_fallback "qué onda".data [("horario".data, "Clases".data)] (by decide)⟩

/-- Claim C3: matched texts appear in the insertion order of the mapping, not in
query order — the entry stored first contributes the earlier line. -/
theorem buscar_orden_insercion (query : Str) (xs ys zs : List (Str × Str)) (k₁ t₁ k₂ t₂ : Str)
    (h₁ : k₁ <:+: lower query) (h₂ : k₂ <:+: lower query) :
    ∃ A B C : Str,
      buscar_contexto_relevante query (some (xs ++ (k₁, t₁) :: ys ++ (k₂, t₂) :: zs))
        = A ++ linea t₁ ++ B ++ linea t₂ ++ C := by
  have hco₁ : coincide (lower query) (k₁, t₁) = true := by simp [coincide, h₁]
  have hco₂ : coincide (lower query) (k₂, t₂) = true := by simp [coincide, h₂]
  have hmem : (k₁, t₁) ∈ xs ++ (k₁, t₁) :: ys ++ (k₂, t₂) :: zs := by simp
  rw [buscar_eq_flatten query _ (k₁, t₁) hmem hco₁]
  refine ⟨((xs.filter (coincide (lower query))).map (fun kv => linea kv.2)).flatten,
          ((ys.filter (coincide (lower query))).map (fun kv => linea kv.2)).flatten,
          ((zs.filter (coincide (lower query))).map (fun kv => linea kv.2)).flatten, ?_⟩
  simp [List.filter_append, List.filter_cons, hco₁, hco₂, List.flatten_append, List.append_assoc]

theorem buscar_orden_insercion_testigo :
    ("a".data <:+: lower "ab".data ∧ "b".data <:+: lower "ab".data)
    ∧ ∃ A B C : Str,
        buscar_contexto_relevante "ab".data
            (some ([] ++ ("a".data, "1".data) :: [] ++ ("b".data, "2".data) :: []))
          = A ++ linea "1".data ++ B ++ linea "2".data ++ C :=
  ⟨⟨by decide, by decide⟩,
    buscar_orden_insercion "ab".data [] [] [] "a".data "1".data "b".data "2".data
      (by decide) (by decide)⟩

/-- Claim C9: an empty stored keyword matches every query, so the match branch
is taken (the output is the concatenated lines, never the fallback) and the
text of that key is always part of the output. -/
theorem clave_vacia_siempre_coincide (query : Str) (base : List (Str × Str)) (t : Str)
    (h : (([] : Str), t) ∈ base) :
    buscar_contexto_relevante query (some base)
      = ((base.filter (coincide (lower query))).map (fun kv => linea kv.2)).flatten
    ∧ t <:+: buscar_contexto_relevante query (some base) := by
  have hco : coincide (lower query) (([] : Str), t) = true := by
    simp only [coincide, decide_eq_true_eq]
    exact ⟨[], lower query, by simp⟩
  exact ⟨buscar_eq_flatten query base _ h hco, texto_incluido query base [] t h hco⟩

theorem clave_vacia_siempre_coincide_testigo :
    ((([] : Str), "T".data) ∈ [(([] : Str), "T".data)])
    ∧ (buscar_contexto_relevante "q".data (some [(([] : Str), "T".data)])
        = (([(([] : Str), "T".data)].filter (coincide (lower "q".data))).map (fun kv => linea kv.2)).flatten
      ∧ "T".data <:+: buscar_contexto_relevante "q".data (some [(([] : Str), "T".data)])) :=
  ⟨by decide, clave_vacia_siempre_coincide "q".data [(([] : Str), "T".data)] "T".data (by decide)⟩

/-- Stored transcript produced by one turn: the user message is appended, then
an assistant message exactly when the oracle returned a non-empty text. -/
theorem procesar_turno_fst (api : List Message → Option Str) (base : List (Str × Str))
    (mensajes : List Message) (prompt : Str) :
    (procesar_turno api base mensajes prompt).1
      = mensajes ++ [⟨ROL_USER, prompt⟩]
        ++ (match api (payload_del_turno base mensajes prompt) with
            | some r => if r.isEmpty then [] else [⟨ROL_ASSISTANT, r⟩]
            | none => []) := by
  unfold procesar_turno generar_respuesta_modelo
  cases api (payload_del_turno base mensajes prompt) with
  | none => simp
  | some r =>
    by_cases hr : r.isEmpty <;> simp [hr]

/-- Claim C4: the outbound payload is one system entry first, then at most 10
entries that are a suffix (most recent, order kept) of the non-system part of
the stored transcript; the payload holds exactly one system-role entry. -/
theorem historial_forma_acotada (mensajes : List Message) (c : Str) :
    ∃ cola : List Message,
      historial_para_api mensajes c = ⟨ROL_SYSTEM, c⟩ :: cola
      ∧ cola.length ≤ 10
      ∧ cola <:+ mensajes_relevantes mensajes
      ∧ (∀ m ∈ cola, m.role ≠ ROL_SYSTEM)
      ∧ (historial_para_api mensajes c).countP (fun m => m.role = ROL_SYSTEM) = 1 := by
  have hsub : ∀ m ∈ sliceUltimos 10 (mensajes_relevantes mensajes), m.role ≠ ROL_SYSTEM := by
    intro m hm
    have hmem : m ∈ mensajes_relevantes mensajes := List.mem_of_mem_drop hm
    have := List.of_mem_filter hmem
    simpa using this
  refine ⟨sliceUltimos 10 (mensajes_relevantes mensajes), rfl, ?_, List.drop_suffix _ _, hsub, ?_⟩
  · simp only [sliceUltimos, List.length_drop]
    omega
  · simp only [historial_para_api, List.countP_cons]
    have h0 : (sliceUltimos 10 (mensajes_relevantes mensajes)).countP
        (fun m => m.role = ROL_SYSTEM) = 0 := by
      rw [List.countP_eq_zero]
      intro m hm
      simpa using hsub m hm
    simp [h0]

/-- Claim C5: when the dispatch raises, the turn ends with the user message
appended, no assistant message, and nothing displayed; the returned state is
ready for the next submission. -/
theorem turno_fallo_transcripcion (api : List Message → Option Str) (base : List (Str × Str))
    (mensajes : List Message) (prompt : Str)
    (h : generar_respuesta_modelo api (payload_del_turno base mensajes prompt) = none) :
    procesar_turno api base mensajes prompt = (mensajes ++ [⟨ROL_USER, prompt⟩], none) := by
  unfold procesar_turno
  rw [h]

theorem turno_fallo_transcripcion_testigo :
    generar_respuesta_modelo (fun _ => none) (payload_del_turno [] [] "hola".data) = none
    ∧ procesar_turno (fun _ => none) [] [] "hola".data = ([⟨ROL_USER, "hola".data⟩], none) :=
  ⟨rfl, turno_fallo_transcripcion (fun _ => none) [] [] "hola".data rfl⟩

/-- Claim C6, as stated, is false: a successful call that returns the empty
string is dropped by the truthiness test `if respuesta_bot:`, so nothing is
appended and nothing is displayed. -/
theorem turno_respuesta_vacia_contraejemplo :
    generar_respuesta_modelo (fun _ => some []) (payload_del_turno [] [] "hola".data) = some []
    ∧ procesar_turno (fun _ => some []) [] [] "hola".data = ([⟨ROL_USER, "hola".data⟩], none) :=
  ⟨rfl, rfl⟩

/-- Claim C6 (amended): a successful call returning a NON-EMPTY text appends it
as the assistant message and displays exactly that text. -/
theorem turno_exito_no_vacio (api : List Message → Option Str) (base : List (Str × Str))
    (mensajes : List Message) (prompt r : Str)
    (h : generar_respuesta_modelo api (payload_del_turno base mensajes prompt) = some r)
    (hr : r ≠ []) :
    procesar_turno api base mensajes prompt
      = (mensajes ++ [⟨ROL_USER, prompt⟩, ⟨ROL_ASSISTANT, r⟩], some r) := by
  unfold procesar_turno
  rw [h]
  have hempty : r.isEmpty = false := by
    cases r with
    | nil => exact absurd rfl hr
    | cons x xs => rfl
  simp [hempty]

theorem turno_exito_no_vacio_testigo :
    (generar_respuesta_modelo (fun _ => some "ok".data) (payload_del_turno [] [] "hola".data)
        = some "ok".data
      ∧ "ok".data ≠ ([] : Str))
    ∧ procesar_turno (fun _ => some "ok".data) [] [] "hola".data
        = ([⟨ROL_USER, "hola".data⟩, ⟨ROL_ASSISTANT, "ok".data⟩], some "ok".data) :=
  ⟨⟨rfl, by decide⟩,
    turno_exito_no_vacio (fun _ => some "ok".data) [] [] "hola".data "ok".data rfl (by decide)⟩

/-- Claim C7: the loader yields `None` plus a distinct visible error for each
of the two failure kinds (and the session start halts on `None`), and yields
the parsed mapping with no error on success. -/
theorem cargar_distingue_fallos :
    main_arranque .noEncontrado = (none, some (MSG_NO_ENCONTRADO RUTA_DEFECTO))
    ∧ main_arranque .jsonInvalido = (none, some (MSG_JSON_INVALIDO RUTA_DEFECTO))
    ∧ MSG_NO_ENCONTRADO RUTA_DEFECTO ≠ MSG_JSON_INVALIDO RUTA_DEFECTO
    ∧ ∀ base : List (Str × Str), main_arranque (.contenido base) = (some base, none) :=
  ⟨rfl, rfl, by decide, fun _ => rfl⟩

/-- Claim C8: the stored transcript after a turn is the pre-payload transcript
(old messages plus the new user message) possibly extended by one assistant
message; the filtering and slicing that build the payload never reach it. -/
theorem turno_ventana_no_muta (api : List Message → Option Str) (base : List (Str × Str))
    (mensajes : List Message) (prompt : Str) :
    (mensajes ++ [⟨ROL_USER, prompt⟩]) <+: (procesar_turno api base mensajes prompt).1
    ∧ (procesar_turno api base mensajes prompt).1
      = mensajes ++ [⟨ROL_USER, prompt⟩]
        ++ (match api (payload_del_turno base mensajes prompt) with
            | some r => if r.isEmpty then [] else [⟨ROL_ASSISTANT, r⟩]
            | none => []) := by
  constructor
  · rw [procesar_turno_fst]
    exact List.prefix_append _ _
  · exact procesar_turno_fst api base mensajes prompt

/-- Claim C10: every reachable stored transcript is free of system-role
messages, so the non-system filter applied while building the payload is the
identity on it. -/
theorem transcripcion_sin_system (mensajes : List Message) (h : Alcanzable mensajes) :
    (∀ m ∈ mensajes, m.role ≠ ROL_SYSTEM) ∧ mensajes_relevantes mensajes = mensajes := by
  have hroles : ∀ m ∈ mensajes, m.role ≠ ROL_SYSTEM := by
    induction h with
    | inicial =>
      intro m hm
      rcases List.mem_singleton.mp hm with rfl
      decide
    | paso api base prompt hprev ih =>
      intro m hm
      rw [procesar_turno_fst] at hm
      rcases List.mem_append.mp hm with hm1 | hm2
      · rcases List.mem_append.mp hm1 with hm3 | hm4
        · exact ih m hm3
        · rcases List.mem_singleton.mp hm4 with rfl
          exact (by decide : ROL_USER ≠ ROL_SYSTEM)
      · revert hm2
        cases api (payload_del_turno base _ prompt) with
        | none => intro hm2; cases hm2
        | some r =>
          by_cases hr : r.isEmpty <;> simp [hr]
          intro hm2
          rcases hm2 with rfl
          exact (by decide : ROL_ASSISTANT ≠ ROL_SYSTEM)
  refine ⟨hroles, List.filter_eq_self.mpr ?_⟩
  intro m hm
  simpa using hroles m hm

theorem transcripcion_sin_system_testigo :
    (∀ m ∈ mensajes_iniciales, m.role ≠ ROL_SYSTEM)
    ∧ mensajes_relevantes mensajes_iniciales = mensajes_iniciales :=
  transcripcion_sin_system mensajes_iniciales Alcanzable.inicial

end Pagina
